/-
Verification development for the browser-llm-extension core:
message routing, streaming token relay, request cancellation, the
provider adapters (Ollama and OpenRouter) and the encrypted API-key
storage subsystem.

Each definition below is a shallow embedding of the corresponding
TypeScript function, translated from the source files:
  src/background/messageHandler.ts
  src/providers/adapters/ollama.ts
  src/providers/adapters/openrouter.ts
  src/providers/errors.ts
  src/lib/secureKeyStorage.ts
  src/utils (sendToBackground)

JavaScript-specific semantics (truthiness of strings, the `||` and `??`
operators, optional chaining) are modelled explicitly by small helper
functions so that each embedded function can follow the source line by
line.  Asynchronous effects are modelled by explicit state passing and
by `Except` for operations that may throw.
-/
import Mathlib

set_option autoImplicit false

namespace BrowserLLM

/-! ## JavaScript semantics helpers -/

/-- Truthiness of an optional JS string: `undefined`/`null` and the empty
string are falsy, every other string is truthy. -/
def jsTruthyOpt : Option String → Bool
  | none => false
  | some s => s ≠ ""

/-- The JS `a || b` operator on an optional string `a` with string default
`b`: returns `a` when truthy, otherwise `b`. -/
def jsOrStr (a : Option String) (b : String) : String :=
  match a with
  | none => b
  | some s => if s = "" then b else s

/-- The JS `a || b` operator on two optional strings, normalising a falsy
result to `none` (the source then compares with `null`). -/
def jsOrOpt (a b : Option String) : Option String :=
  if jsTruthyOpt a then a else if jsTruthyOpt b then b else none

/-- Character-list helper: does `s` start with `pat`? -/
def charsStartWith : List Char → List Char → Bool
  | _, [] => true
  | [], _ :: _ => false
  | c :: cs, p :: ps => c = p && charsStartWith cs ps

/-- Character-list helper: does `pat` occur contiguously inside the list? -/
def charsContain (pat : List Char) : List Char → Bool
  | [] => pat.isEmpty
  | c :: cs => charsStartWith (c :: cs) pat || charsContain pat cs

/-- JS `String.prototype.includes`: substring containment. -/
def strContains (s pat : String) : Bool :=
  charsContain pat.data s.data

/-- JS `String.prototype.toLowerCase`, modelled structurally over the
character list. -/
def strToLower (s : String) : String :=
  String.mk (s.data.map Char.toLower)

/-! ## Stream tokens and adapter streams

`StreamToken` is the unified streaming unit from `src/providers/types.ts`:
`{ content: string; done: boolean }`. -/

structure StreamToken where
  content : String
  done : Bool
deriving DecidableEq, Repr

/-- Cooperative abort signal: `abortAt = some k` means the adapter's
`AbortController` signal is observed as aborted from loop iteration `k`
onwards (the signal, once set, stays set); `none` means abort is never
observed. -/
def isAborted (abortAt : Option Nat) (i : Nat) : Bool :=
  match abortAt with
  | none => false
  | some k => decide (k ≤ i)

namespace OllamaAdapter

/-- One chunk produced by the ollama client chat stream:
`chunk.message.content` and `chunk.done`. -/
structure Chunk where
  content : String
  done : Bool
deriving DecidableEq, Repr

/-- Loop body of `OllamaAdapter.stream` (src/providers/adapters/ollama.ts,
lines 151-160): at the top of each iteration the abort signal is checked
and, when set, the generator returns without yielding anything further;
otherwise it yields `{ content: chunk.message.content, done: chunk.done }`. -/
def streamGo (abortAt : Option Nat) : Nat → List Chunk → List StreamToken
  | _, [] => []
  | i, c :: rest =>
    if isAborted abortAt i then []
    else ⟨c.content, c.done⟩ :: streamGo abortAt (i + 1) rest

/-- The token sequence yielded by `OllamaAdapter.stream` when the upstream
client delivers `chunks`, given the abort schedule `abortAt`. -/
def stream (chunks : List Chunk) (abortAt : Option Nat) : List StreamToken :=
  streamGo abortAt 0 chunks

end OllamaAdapter

namespace OpenRouterAdapter

/-- One chunk of the OpenRouter SDK event stream, after the optional
chaining in the source: `content = chunk.choices?.[0]?.delta?.content ?? ''`
and `finishReason = chunk.choices?.[0]?.finishReason` (possibly absent). -/
structure Chunk where
  content : String
  finishReason : Option String
deriving DecidableEq, Repr

/-- Loop body of `OpenRouterAdapter.stream` (src/providers/adapters/
openrouter.ts, lines 168-188): abort is checked at the top of each
iteration (returning early without a terminal token); a truthy `content`
yields a non-done token; a truthy `finishReason` yields a `done` token and
ends the generator; when the upstream ends without a finish reason a
trailing `{content: two-quote empty, done: true}` token is yielded. -/
def streamGo (abortAt : Option Nat) : Nat → List Chunk → List StreamToken
  | _, [] => [⟨"", true⟩]
  | i, c :: rest =>
    if isAborted abortAt i then []
    else
      (if c.content ≠ "" then [(⟨c.content, false⟩ : StreamToken)] else []) ++
        (if jsTruthyOpt c.finishReason then [(⟨"", true⟩ : StreamToken)]
         else streamGo abortAt (i + 1) rest)

/-- The token sequence yielded by `OpenRouterAdapter.stream` when the SDK
delivers `chunks`, given the abort schedule `abortAt`. -/
def stream (chunks : List Chunk) (abortAt : Option Nat) : List StreamToken :=
  streamGo abortAt 0 chunks

end OpenRouterAdapter

/-- Extract the `done` flag of the final element of a token sequence
(`false` when the sequence is empty). -/
def lastDone (ts : List StreamToken) : Bool :=
  (ts.getLast?.map StreamToken.done).getD false

/-! ## Background streaming relay (handleStreamGenerate)

Messages sent to the originating tab via `chrome.tabs.sendMessage`
(src/background/messageHandler.ts, lines 319-357). -/

inductive SentMessage where
  | streamToken (requestId : String) (token : String)
  | streamComplete (requestId : String)
  | streamCancelled (requestId : String)
  | streamError (requestId : String) (error : String)
deriving DecidableEq, Repr

/-- Termination behaviour of the adapter stream consumed by
`handleStreamGenerate`: either the iterator ends normally after its
yielded tokens, or it throws (an `AbortError` when `isAbort` is true,
any other error otherwise). -/
inductive StreamOutcome where
  | normal
  | thrown (isAbort : Bool) (message : String)
deriving DecidableEq, Repr

/-- The active-request map of the background streaming session manager,
modelled as the list of request ids currently present. -/
def ActiveMap := List String
deriving DecidableEq, Repr

/-- Insertion of a request id into the active-request map
(`activeRequests.set(requestId, abortController)`). -/
def mapSet (rid : String) (m : ActiveMap) : ActiveMap :=
  rid :: (List.filter (fun r => r ≠ rid) m)

/-- Removal of a request id from the active-request map
(`activeRequests.delete(requestId)`). -/
def mapDelete (rid : String) (m : ActiveMap) : ActiveMap :=
  List.filter (fun r => r ≠ rid) m

/-- Membership in the active-request map (`activeRequests.get` hit). -/
def mapHas (rid : String) (m : ActiveMap) : Bool :=
  List.contains m rid

/-- Loop of `handleStreamGenerate` (src/background/messageHandler.ts,
lines 319-342): for each yielded token, if the abort signal is already
set, send one `STREAM_CANCELLED` and return early (second component
`true`); otherwise send `STREAM_TOKEN` with the token content and, when
the token has `done` set, additionally send `STREAM_COMPLETE`. -/
def streamLoop (rid : String) (abortAt : Option Nat) :
    Nat → List StreamToken → List SentMessage × Bool
  | _, [] => ([], false)
  | i, t :: rest =>
    if isAborted abortAt i then ([SentMessage.streamCancelled rid], true)
    else
      let tail := streamLoop rid abortAt (i + 1) rest
      (SentMessage.streamToken rid t.content ::
        ((if t.done then [SentMessage.streamComplete rid] else []) ++ tail.1),
       tail.2)

/-- Embedding of `handleStreamGenerate` (src/background/messageHandler.ts,
lines 293-359).  The entry for `rid` is inserted into the active-request
map first; the loop then consumes `tokens`; when the loop did not return
early and the stream terminates by throwing, the catch clause sends
`STREAM_CANCELLED` for an `AbortError` and `STREAM_ERROR` otherwise; the
`finally` clause removes the entry on every exit path.  Returns the list
of messages sent to the tab and the final active-request map. -/
def handleStreamGenerate (rid : String) (m : ActiveMap)
    (tokens : List StreamToken) (outcome : StreamOutcome)
    (abortAt : Option Nat) : List SentMessage × ActiveMap :=
  let m1 := mapSet rid m
  let body := streamLoop rid abortAt 0 tokens
  let msgs :=
    if body.2 then body.1
    else
      match outcome with
      | StreamOutcome.normal => body.1
      | StreamOutcome.thrown true _ => body.1 ++ [SentMessage.streamCancelled rid]
      | StreamOutcome.thrown false e => body.1 ++ [SentMessage.streamError rid e]
  (msgs, mapDelete rid m1)

/-! ## Base64 (btoa / atob over byte lists)

The source encodes ciphertext and IV with
`btoa(String.fromCharCode(...bytes))` and decodes with
`Uint8Array.from(atob(s), c => c.charCodeAt(0))`.  We model the composite
as standard base64 over lists of byte values (`Nat < 256`). -/

def base64Alphabet : List Char :=
  "ABCDEFGHIJKLMNOPQRSTUVWXYZabcdefghijklmnopqrstuvwxyz0123456789+/".data

/-- Character for a 6-bit group. -/
def sextetChar (n : Nat) : Char :=
  base64Alphabet.getD n '='

/-- Index of a base64 character in the alphabet. -/
def charSextet (c : Char) : Nat :=
  List.findIdx (fun x => x = c) base64Alphabet

/-- Base64-encode a list of bytes, three bytes to four characters, with
trailing padding. -/
def b64e : List Nat → List Char
  | [] => []
  | [a] => [sextetChar (a / 4), sextetChar (a % 4 * 16), '=', '=']
  | [a, b] => [sextetChar (a / 4), sextetChar (a % 4 * 16 + b / 16),
               sextetChar (b % 16 * 4), '=']
  | a :: b :: c :: rest =>
    sextetChar (a / 4) :: sextetChar (a % 4 * 16 + b / 16) ::
      sextetChar (b % 16 * 4 + c / 64) :: sextetChar (c % 64) :: b64e rest

/-- Base64-decode a list of characters back to bytes, honouring trailing
padding. -/
def b64d : List Char → List Nat
  | w :: x :: y :: z :: rest =>
    if y = '=' then [charSextet w * 4 + charSextet x / 16]
    else if z = '=' then
      [charSextet w * 4 + charSextet x / 16,
       charSextet x % 16 * 16 + charSextet y / 4]
    else
      (charSextet w * 4 + charSextet x / 16) ::
        (charSextet x % 16 * 16 + charSextet y / 4) ::
        (charSextet y % 4 * 64 + charSextet z) :: b64d rest
  | _ => []

theorem charSextet_sextetChar : ∀ n, n < 64 → charSextet (sextetChar n) = n := by
  decide

theorem sextetChar_ne_pad : ∀ n, n < 64 → sextetChar n ≠ '=' := by
  decide

theorem b64_roundtrip : ∀ bs : List Nat, (∀ b ∈ bs, b < 256) →
    b64d (b64e bs) = bs := by
  intro bs
  induction bs using b64e.induct with
  | case1 => intro _; rfl
  | case2 a =>
    intro h
    have ha : a < 256 := h a (by simp)
    have h1 : a / 4 < 64 := by omega
    have h2 : a % 4 * 16 < 64 := by omega
    show b64d [sextetChar (a / 4), sextetChar (a % 4 * 16), '=', '='] = [a]
    simp only [b64d, if_true]
    rw [charSextet_sextetChar _ h1, charSextet_sextetChar _ h2]
    simp only [List.cons.injEq, and_true]
    omega
  | case3 a b =>
    intro h
    have ha : a < 256 := h a (by simp)
    have hb : b < 256 := h b (by simp)
    have h1 : a / 4 < 64 := by omega
    have h2 : a % 4 * 16 + b / 16 < 64 := by omega
    have h3 : b % 16 * 4 < 64 := by omega
    show b64d [sextetChar (a / 4), sextetChar (a % 4 * 16 + b / 16),
      sextetChar (b % 16 * 4), '='] = [a, b]
    simp only [b64d, if_true]
    rw [if_neg (sextetChar_ne_pad _ h3),
      charSextet_sextetChar _ h1, charSextet_sextetChar _ h2,
      charSextet_sextetChar _ h3]
    simp only [List.cons.injEq, and_true]
    omega
  | case4 a b c rest ih =>
    intro h
    have ha : a < 256 := h a (by simp)
    have hb : b < 256 := h b (by simp)
    have hc : c < 256 := h c (by simp)
    have h1 : a / 4 < 64 := by omega
    have h2 : a % 4 * 16 + b / 16 < 64 := by omega
    have h3 : b % 16 * 4 + c / 64 < 64 := by omega
    have h4 : c % 64 < 64 := by omega
    have hrest : ∀ x ∈ rest, x < 256 := by
      intro x hx; exact h x (by simp [hx])
    show b64d (sextetChar (a / 4) :: sextetChar (a % 4 * 16 + b / 16) ::
      sextetChar (b % 16 * 4 + c / 64) :: sextetChar (c % 64) :: b64e rest) =
      a :: b :: c :: rest
    simp only [b64d]
    rw [if_neg (sextetChar_ne_pad _ h3), if_neg (sextetChar_ne_pad _ h4),
      charSextet_sextetChar _ h1, charSextet_sextetChar _ h2,
      charSextet_sextetChar _ h3, charSextet_sextetChar _ h4, ih hrest]
    simp only [List.cons.injEq, and_true]
    omega

theorem b64e_inj (as bs : List Nat) (ha : ∀ b ∈ as, b < 256)
    (hb : ∀ b ∈ bs, b < 256) (h : b64e as = b64e bs) : as = bs := by
  rw [← b64_roundtrip as ha, ← b64_roundtrip bs hb, h]

/-! ## Secure API-key storage (src/lib/secureKeyStorage.ts)

The AES-GCM primitive lives behind WebCrypto: `crypto.subtle.encrypt`
and `crypto.subtle.decrypt` with the non-extractable key handle from
IndexedDB.  We model the primitive as a pair of functions
`E, D : κ → List Nat → List Nat → List Nat` (key handle, IV, data) whose
algebraic properties (decryption inverts encryption under the same key
and IV; distinct IVs give distinct ciphertexts) enter the theorems as
explicit hypotheses, and the `TextEncoder`/`TextDecoder` pair as
`enc : String → List Nat` / `dec : List Nat → String`. -/

structure EncryptedData where
  ciphertext : String
  iv : String
  version : Nat
deriving DecidableEq, Repr

/-- Embedding of `encryptApiKey` (src/lib/secureKeyStorage.ts, lines
138-154): encode the plaintext, encrypt under the stored key handle with
the freshly drawn 12-byte IV, and base64-encode both ciphertext and IV. -/
def encryptApiKey {κ : Type} (E : κ → List Nat → List Nat → List Nat)
    (enc : String → List Nat) (key : κ) (iv : List Nat)
    (apiKey : String) : EncryptedData :=
  { ciphertext := String.mk (b64e (E key iv (enc apiKey)))
    iv := String.mk (b64e iv)
    version := 1 }

/-- Embedding of `decryptApiKey` (src/lib/secureKeyStorage.ts, lines
159-171): base64-decode the stored IV and ciphertext, decrypt under the
same key handle, and decode the plaintext bytes back to a string. -/
def decryptApiKey {κ : Type} (D : κ → List Nat → List Nat → List Nat)
    (dec : List Nat → String) (key : κ) (d : EncryptedData) : String :=
  dec (D key (b64d d.iv.data) (b64d d.ciphertext.data))

/-- The two storage areas touched by the key-storage module:
`chrome.storage.local` holding the encrypted record, and
`chrome.storage.session` holding the decrypted cache. -/
structure KeyStorageState where
  localEncrypted : Option EncryptedData
  sessionCache : Option String
deriving DecidableEq, Repr

/-- Embedding of `clearStoredApiKey` (src/lib/secureKeyStorage.ts, lines
252-260): removes the encrypted record and clears the session cache. -/
def clearStoredApiKey (_st : KeyStorageState) : KeyStorageState :=
  { localEncrypted := none, sessionCache := none }

/-- Embedding of `saveEncryptedApiKey` (src/lib/secureKeyStorage.ts,
lines 178-195): an empty key clears all storage; otherwise the key is
encrypted, the record stored, and the plaintext cached in the session
store. -/
def saveEncryptedApiKey {κ : Type} (E : κ → List Nat → List Nat → List Nat)
    (enc : String → List Nat) (key : κ) (iv : List Nat)
    (apiKey : String) (st : KeyStorageState) : KeyStorageState :=
  if apiKey = "" then clearStoredApiKey st
  else
    { localEncrypted := some (encryptApiKey E enc key iv apiKey)
      sessionCache := some apiKey }

/-- Embedding of `hasStoredApiKey` (src/lib/secureKeyStorage.ts, lines
237-247): true exactly when an encrypted record with a truthy
ciphertext field is present (`!!encrypted?.ciphertext`). -/
def hasStoredApiKey (st : KeyStorageState) : Bool :=
  match st.localEncrypted with
  | none => false
  | some e => e.ciphertext ≠ ""

/-! ## Provider error taxonomy and results
(src/providers/types.ts and src/providers/errors.ts) -/

inductive LLMErrorCode where
  | CONNECTION_FAILED
  | AUTHENTICATION_FAILED
  | MODEL_NOT_FOUND
  | RATE_LIMITED
  | TIMEOUT
  | CANCELLED
  | INVALID_RESPONSE
  | UNKNOWN
deriving DecidableEq, Repr

/-- Wire string of an `LLMErrorCode` (the enum values are their own
names in the source). -/
def LLMErrorCode.asString : LLMErrorCode → String
  | .CONNECTION_FAILED => "CONNECTION_FAILED"
  | .AUTHENTICATION_FAILED => "AUTHENTICATION_FAILED"
  | .MODEL_NOT_FOUND => "MODEL_NOT_FOUND"
  | .RATE_LIMITED => "RATE_LIMITED"
  | .TIMEOUT => "TIMEOUT"
  | .CANCELLED => "CANCELLED"
  | .INVALID_RESPONSE => "INVALID_RESPONSE"
  | .UNKNOWN => "UNKNOWN"

/-- Embedding of `LLMResult<T>`: the tagged union returned by every
provider operation (the opaque `details` field is dropped). -/
inductive LLMResult (α : Type) where
  | success (data : α)
  | failure (code : LLMErrorCode) (message : String)
deriving DecidableEq, Repr

/-- Embedding of `createError` (src/providers/errors.ts). -/
def createError {α : Type} (code : LLMErrorCode) (message : String) :
    LLMResult α :=
  LLMResult.failure code message

/-- Embedding of `createSuccess` (src/providers/errors.ts). -/
def createSuccess {α : Type} (data : α) : LLMResult α :=
  LLMResult.success data

/-- A JS `Error` instance: its `name` and `message`. -/
structure JsError where
  name : String
  message : String
deriving DecidableEq, Repr

/-- A thrown JS value: `some e` when it is an `Error` instance, `none`
for any non-`Error` value. -/
abbrev Thrown := Option JsError

/-- The message the router reports for a caught value
(`error instanceof Error ? error.message : unknown-error text`). -/
def thrownMessage : Thrown → String
  | some e => e.message
  | none => "Unknown error"

/-- Embedding of `normalizeError` (src/providers/errors.ts, lines 29-78):
classifies a thrown value into an error code and message. -/
def normalizeError : Thrown → LLMErrorCode × String
  | some e =>
    if strContains e.message "fetch" || strContains e.message "network" ||
        strContains e.message "Failed to fetch" ||
        strContains e.message "NetworkError" then
      (LLMErrorCode.CONNECTION_FAILED,
       "Network error. Check your connection and ensure the provider is running.")
    else if e.name = "AbortError" then
      (LLMErrorCode.CANCELLED, "Request was cancelled")
    else if e.name = "TimeoutError" || strContains e.message "timeout" then
      (LLMErrorCode.TIMEOUT, "Request timed out")
    else (LLMErrorCode.UNKNOWN, e.message)
  | none => (LLMErrorCode.UNKNOWN, "An unknown error occurred")

/-- Embedding of `handleFetchError` (src/providers/errors.ts, lines 80-88). -/
def handleFetchError {α : Type} (e : Thrown) : LLMResult α :=
  LLMResult.failure (normalizeError e).1 (normalizeError e).2

/-! ## OpenRouter adapter: complete and handleError
(src/providers/adapters/openrouter.ts) -/

namespace OpenRouterAdapter

/-- One element of `response.choices` after optional chaining:
`message?.content` (`none` when missing or not a string) and
`finishReason`. -/
structure Choice where
  messageContent : Option String
  finishReason : Option String
deriving DecidableEq, Repr

/-- The SDK response to a non-streaming `chat.send`. -/
structure ChatResponse where
  choices : List Choice
  model : String
  usage : Option (Nat × Nat × Nat)
deriving DecidableEq, Repr

/-- The unified `CompletionResponse` (src/providers/types.ts), with usage
as (promptTokens, completionTokens, totalTokens). -/
structure CompletionResponse where
  content : String
  model : String
  usage : Option (Nat × Nat × Nat)
  finishReason : String
deriving DecidableEq, Repr

/-- The first substring test of `handleError`: `401`, `unauthorized` or
`invalid api key` in the lowercased message. -/
def authPattern (m : String) : Bool :=
  strContains m "401" || strContains m "unauthorized" ||
    strContains m "invalid api key"

/-- The second substring test of `handleError`: `404` or `not found`. -/
def notFoundPattern (m : String) : Bool :=
  strContains m "404" || strContains m "not found"

/-- The third substring test of `handleError`: `429` or `rate limit`. -/
def ratePattern (m : String) : Bool :=
  strContains m "429" || strContains m "rate limit"

/-- Embedding of `OpenRouterAdapter.handleError`
(src/providers/adapters/openrouter.ts, lines 207-233).  String checks are
on the lowercased message, in source order; the `AbortError` name check
comes after all substring checks.  The single quotes around the model id
in the original not-found message are elided. -/
def handleError {α : Type} (modelId : String) (e : Thrown) : LLMResult α :=
  match e with
  | some err =>
    let m := strToLower err.message
    if authPattern m then
      createError LLMErrorCode.AUTHENTICATION_FAILED "Invalid API key"
    else if notFoundPattern m then
      createError LLMErrorCode.MODEL_NOT_FOUND
        ("Model " ++ modelId ++ " not found")
    else if ratePattern m then
      createError LLMErrorCode.RATE_LIMITED "Rate limited. Please try again later."
    else if err.name = "AbortError" then
      createError LLMErrorCode.CANCELLED "Request was cancelled"
    else handleFetchError e
  | none => handleFetchError e

/-- Outcome of the `this.client.chat.send` call inside `complete`: the
SDK either returns a response or throws. -/
inductive SendOutcome where
  | ok (resp : ChatResponse)
  | thrown (e : Thrown)
deriving DecidableEq, Repr

/-- Embedding of `OpenRouterAdapter.complete`
(src/providers/adapters/openrouter.ts, lines 86-136): falls back to the
adapter model id when the request does not name a model, returns
`MODEL_NOT_FOUND` when both are empty, converts any thrown value through
`handleError`, rejects a missing/empty content as `INVALID_RESPONSE`, and
otherwise returns the unified completion response. -/
def complete (modelId requestModel : String) (outcome : SendOutcome) :
    LLMResult CompletionResponse :=
  let model := if requestModel = "" then modelId else requestModel
  if model = "" then
    createError LLMErrorCode.MODEL_NOT_FOUND "No model specified"
  else
    match outcome with
    | SendOutcome.thrown e => handleError modelId e
    | SendOutcome.ok resp =>
      match (resp.choices.head?).bind Choice.messageContent with
      | none => createError LLMErrorCode.INVALID_RESPONSE "No content in response"
      | some c =>
        if c = "" then
          createError LLMErrorCode.INVALID_RESPONSE "No content in response"
        else
          createSuccess
            { content := c
              model := resp.model
              usage := resp.usage
              finishReason :=
                if (resp.choices.head?).bind Choice.finishReason = some "length"
                then "length" else "stop" }

end OpenRouterAdapter

/-! ## Message router (src/background/messageHandler.ts, handleMessage) -/

/-- Model information as returned by `listModels`
(src/providers/types.ts). -/
structure ModelInfo where
  name : String
  size : Option String
  modifiedAt : Option String
deriving DecidableEq, Repr

/-- The `AvailableModel` shape sent back for `LIST_MODELS`
(src/types/messages.ts). -/
structure AvailableModel where
  name : String
  size : String
  modifiedAt : String
deriving DecidableEq, Repr

/-- The data payload of a successful router response, covering the shapes
that appear in the switch; proprietary service payloads are opaque
strings. -/
inductive RespData where
  | null
  | boolean (b : Bool)
  | models (ms : List AvailableModel)
  | text (s : String)
  | started
deriving DecidableEq, Repr

/-- The error half of a response envelope. -/
structure ErrorEnvelope where
  code : String
  message : String
deriving DecidableEq, Repr

/-- The `ExtensionResponse` envelope:
`{success:true, data}` or `{success:false, error}`. -/
inductive Envelope (α : Type) where
  | ok (data : α)
  | fail (error : ErrorEnvelope)
deriving DecidableEq, Repr

/-- The provider configuration read from `chrome.storage.sync`
(`StoredProviderConfig` in src/background/messageHandler.ts). -/
structure StoredProviderConfig where
  type : String
  host : String
  port : Nat
  model : String
  apiKey : Option String := none
  modelId : Option String := none
deriving DecidableEq, Repr

/-- Model resolution of `handleMessage`
(src/background/messageHandler.ts, lines 76-116): for OpenRouter the
model is the configured model id, provided a stored key exists, a key was
decrypted and the id is truthy (otherwise the router silently falls back
to a default Ollama provider with a `null` model); for Ollama and for
unsupported provider kinds, `providerConfig.model || null`. -/
def resolveModel (cfg : StoredProviderConfig) (loadedKey : Option String)
    (hasKey : Bool) : Option String :=
  if cfg.type = "openrouter" then
    if !hasKey || !jsTruthyOpt loadedKey || !jsTruthyOpt cfg.modelId then none
    else cfg.modelId
  else if cfg.model = "" then none else some cfg.model

/-- Inbound request messages, discriminated by `type`
(src/types/messages.ts); payloads not consulted by the router are
omitted, and `other` stands for any unhandled `type` string. -/
inductive ExtensionRequest where
  | testConnection
  | listModels
  | translate
  | writingAssist
  | grammarCheck
  | generateStream (prompt requestId : String) (model system : Option String)
  | cancelRequest (requestId : String)
  | getConfig
  | updateConfig
  | transform (text transformationId : String)
  | refreshContextMenus
  | other (type : String)
deriving DecidableEq, Repr

/-- The `type` discriminator string of a request. -/
def msgType : ExtensionRequest → String
  | .testConnection => "TEST_CONNECTION"
  | .listModels => "LIST_MODELS"
  | .translate => "TRANSLATE"
  | .writingAssist => "WRITING_ASSIST"
  | .grammarCheck => "GRAMMAR_CHECK"
  | .generateStream _ _ _ _ => "GENERATE_STREAM"
  | .cancelRequest _ => "CANCEL_REQUEST"
  | .getConfig => "GET_CONFIG"
  | .updateConfig => "UPDATE_CONFIG"
  | .transform _ _ => "TRANSFORM"
  | .refreshContextMenus => "REFRESH_CONTEXT_MENUS"
  | .other t => t

/-- The discriminator strings handled by the router switch. -/
def handledTypes : List String :=
  ["TEST_CONNECTION", "LIST_MODELS", "TRANSLATE", "WRITING_ASSIST",
   "GRAMMAR_CHECK", "GENERATE_STREAM", "CANCEL_REQUEST", "GET_CONFIG",
   "UPDATE_CONFIG", "TRANSFORM", "REFRESH_CONTEXT_MENUS"]

/-- The model-requiring check (src/background/messageHandler.ts,
lines 119-121). -/
def requiresModel (msg : ExtensionRequest) : Bool :=
  ["TRANSLATE", "WRITING_ASSIST", "GRAMMAR_CHECK", "TRANSFORM"].contains
    (msgType msg)

/-- Shared mutable state touched by the router: the active-request map and
the current adapter's in-flight operation, modelled by the aborted flag of
its `AbortController` signal (`none` when nothing is in flight). -/
structure HandlerState where
  activeRequests : ActiveMap
  adapterInFlight : Option Bool
deriving DecidableEq, Repr

/-- Outcomes of the awaited operations inside the router's try block.
Each is either a thrown value or the operation's result; the services
(translate, writing assist, grammar check, transform) return opaque data
modelled as strings. -/
structure Env where
  testConnection : Except Thrown (LLMResult Bool)
  listModels : Except Thrown (LLMResult (List ModelInfo))
  translate : Except Thrown (LLMResult String)
  assistWriting : Except Thrown (LLMResult String)
  checkGrammar : Except Thrown (LLMResult String)
  getTransformationById : Except Thrown Bool
  transformRun : Except Thrown (LLMResult String)
  registerContextMenus : Except Thrown Unit
  updateConfigRun : Except Thrown Unit

/-- Wrap a service `LLMResult` into the response envelope, passing the
adapter error code and message through unchanged. -/
def wrapText (r : LLMResult String) : Envelope RespData :=
  match r with
  | LLMResult.success s => Envelope.ok (RespData.text s)
  | LLMResult.failure c m => Envelope.fail ⟨c.asString, m⟩

/-- The switch statement inside the router's try block
(src/background/messageHandler.ts, lines 133-277).  Returns the response
and updated state (or the thrown value escaping to the catch clause),
together with the list of provider/service operations invoked. -/
def dispatch (env : Env) (model : Option String) (tabId : Option Nat)
    (st : HandlerState) :
    ExtensionRequest →
      Except Thrown (Envelope RespData × HandlerState) × List String
  | .testConnection =>
    (env.testConnection.map (fun r =>
      (match r with
       | LLMResult.success _ => Envelope.ok (RespData.boolean true)
       | LLMResult.failure c m => Envelope.fail ⟨c.asString, m⟩, st)),
     ["provider.testConnection"])
  | .listModels =>
    (env.listModels.map (fun r =>
      (match r with
       | LLMResult.success ms =>
         Envelope.ok (RespData.models (ms.map (fun m =>
           { name := m.name
             size := m.size.getD "Unknown"
             modifiedAt := m.modifiedAt.getD "" })))
       | LLMResult.failure c m => Envelope.fail ⟨c.asString, m⟩, st)),
     ["provider.listModels"])
  | .translate =>
    (env.translate.map (fun r => (wrapText r, st)), ["translate"])
  | .writingAssist =>
    (env.assistWriting.map (fun r => (wrapText r, st)), ["assistWriting"])
  | .grammarCheck =>
    (env.checkGrammar.map (fun r => (wrapText r, st)), ["checkGrammar"])
  | .generateStream _ requestId pm _ =>
    match tabId with
    | none =>
      (Except.ok (Envelope.fail ⟨"NO_TAB", "No tab ID for streaming"⟩, st), [])
    | some _ =>
      match jsOrOpt pm model with
      | none =>
        (Except.ok (Envelope.fail ⟨"MODEL_NOT_SELECTED",
          "Please select a model in the extension popup first"⟩, st), [])
      | some _ =>
        (Except.ok (Envelope.ok RespData.started,
          { st with activeRequests := mapSet requestId st.activeRequests }),
         ["provider.stream"])
  | .cancelRequest requestId =>
    let st1 :=
      if mapHas requestId st.activeRequests then
        { st with activeRequests := mapDelete requestId st.activeRequests }
      else st
    let st2 := { st1 with adapterInFlight := st1.adapterInFlight.map (fun _ => true) }
    (Except.ok (Envelope.ok RespData.null, st2), ["provider.abort"])
  | .getConfig => (Except.ok (Envelope.ok RespData.null, st), [])
  | .updateConfig =>
    (env.updateConfigRun.map (fun _ => (Envelope.ok RespData.null, st)), [])
  | .transform _ _ =>
    (match env.getTransformationById with
     | Except.error e => (Except.error e, ["getTransformationByIdFromStorage"])
     | Except.ok false =>
       (Except.ok (Envelope.fail ⟨"TRANSFORMATION_NOT_FOUND",
         "Transformation not found"⟩, st), ["getTransformationByIdFromStorage"])
     | Except.ok true =>
       match env.transformRun with
       | Except.error e =>
         (Except.error e, ["getTransformationByIdFromStorage", "transform"])
       | Except.ok r =>
         (Except.ok (wrapText r, st),
          ["getTransformationByIdFromStorage", "transform"]))
  | .refreshContextMenus =>
    (env.registerContextMenus.map (fun _ => (Envelope.ok RespData.null, st)), [])
  | .other _ =>
    (Except.ok (Envelope.fail ⟨"UNKNOWN_MESSAGE", "Unknown message type"⟩, st),
     [])

/-- Embedding of `handleMessage` (src/background/messageHandler.ts,
lines 66-288): resolves the model from the stored configuration and the
secure-key state, short-circuits with `MODEL_NOT_SELECTED` for
model-requiring kinds, and otherwise runs the dispatch switch under the
top-level try/catch that converts any thrown value to an
`INTERNAL_ERROR` envelope.  Returns the response envelope, the final
shared state, and the trace of provider/service operations invoked. -/
def handleMessage (env : Env) (cfg : StoredProviderConfig)
    (loadedKey : Option String) (hasKey : Bool) (tabId : Option Nat)
    (st : HandlerState) (msg : ExtensionRequest) :
    Envelope RespData × HandlerState × List String :=
  let model := resolveModel cfg loadedKey hasKey
  if requiresModel msg && model.isNone then
    (Envelope.fail ⟨"MODEL_NOT_SELECTED",
      "Please select a model in the extension popup first"⟩, st, [])
  else
    let d := dispatch env model tabId st msg
    match d.1 with
    | Except.ok (r, st1) => (r, st1, d.2)
    | Except.error e => (Envelope.fail ⟨"INTERNAL_ERROR", thrownMessage e⟩, st, d.2)

/-! ## Client messaging facade (sendToBackground) -/

/-- State of the `chrome.runtime` transport observed by
`sendToBackground`: the runtime may be absent; otherwise the send
callback fires with `chrome.runtime.lastError` (whose `message` may be
absent) and the response value (`none` models null/undefined). -/
inductive Transport (ρ : Type) where
  | absent
  | callback (lastError : Option (Option String)) (response : Option (Envelope ρ))
deriving DecidableEq, Repr

/-- Embedding of `sendToBackground` (messaging utility module, lines
7-39): resolves with `NO_RUNTIME` when the transport is absent,
`MESSAGING_ERROR` on a delivery-level failure, `NO_RESPONSE` when the
receiver returned nothing, and the received envelope otherwise.  The
function is total: every path resolves, none rejects. -/
def sendToBackground {ρ : Type} : Transport ρ → Envelope ρ
  | Transport.absent =>
    Envelope.fail ⟨"NO_RUNTIME", "Chrome runtime not available"⟩
  | Transport.callback (some m) _ =>
    Envelope.fail ⟨"MESSAGING_ERROR", jsOrStr m "Unknown messaging error"⟩
  | Transport.callback none none =>
    Envelope.fail ⟨"NO_RESPONSE", "No response received"⟩
  | Transport.callback none (some r) => r

/-! ## Supporting lemmas -/

theorem mapHas_mapDelete (rid : String) (m : ActiveMap) :
    mapHas rid (mapDelete rid m) = false := by
  unfold mapHas mapDelete
  induction m with
  | nil => rfl
  | cons a as ih =>
    rw [List.filter_cons]
    by_cases h : a = rid
    · rw [if_neg (by simp [h])]
      exact ih
    · rw [if_pos (by simp [h]), List.contains_cons]
      simp [ih, Ne.symm h]

theorem streamLoop_none_append_done (rid : String) (ts : List StreamToken)
    (h : ∀ t ∈ ts, t.done = false) (i : Nat) :
    streamLoop rid none i (ts ++ [⟨"", true⟩]) =
      (ts.map (fun t => SentMessage.streamToken rid t.content) ++
        [SentMessage.streamToken rid "", SentMessage.streamComplete rid],
       false) := by
  induction ts generalizing i with
  | nil => simp [streamLoop, isAborted]
  | cons t rest ih =>
    have ht : t.done = false := h t (by simp)
    have hr : ∀ x ∈ rest, x.done = false := fun x hx => h x (by simp [hx])
    simp [streamLoop, isAborted, ht, ih hr i.succ]

theorem ollama_streamGo_none (cs : List OllamaAdapter.Chunk) (i : Nat) :
    OllamaAdapter.streamGo none i cs =
      cs.map (fun c => ⟨c.content, c.done⟩) := by
  induction cs generalizing i with
  | nil => rfl
  | cons c rest ih => simp [OllamaAdapter.streamGo, isAborted, ih]

theorem ollama_streamGo_abort (k : Nat) (cs : List OllamaAdapter.Chunk) :
    ∀ i, OllamaAdapter.streamGo (some k) i cs =
      (cs.take (k - i)).map (fun c => ⟨c.content, c.done⟩) := by
  induction cs with
  | nil => intro i; simp [OllamaAdapter.streamGo]
  | cons c rest ih =>
    intro i
    by_cases h : k ≤ i
    · have : k - i = 0 := by omega
      simp [OllamaAdapter.streamGo, isAborted, h, this]
    · have hk : k - i = (k - (i + 1)) + 1 := by omega
      simp [OllamaAdapter.streamGo, isAborted, h, hk, ih (i + 1)]

theorem or_streamGo_none_getLast (ds : List OpenRouterAdapter.Chunk) (i : Nat) :
    (OpenRouterAdapter.streamGo none i ds).getLast? =
      some ⟨"", true⟩ := by
  induction ds generalizing i with
  | nil => rfl
  | cons d rest ih =>
    show ((if d.content ≠ "" then [(⟨d.content, false⟩ : StreamToken)] else []) ++
      (if jsTruthyOpt d.finishReason then [(⟨"", true⟩ : StreamToken)]
       else OpenRouterAdapter.streamGo none (i + 1) rest)).getLast? = _
    by_cases hf : jsTruthyOpt d.finishReason
    · simp [hf, List.getLast?_concat]
    · have hne : OpenRouterAdapter.streamGo none (i + 1) rest ≠ [] := by
        intro hnil
        have := ih (i + 1)
        rw [hnil] at this
        exact Option.noConfusion this
      rw [if_neg hf, List.getLast?_append_of_ne_nil _ hne, ih (i + 1)]

theorem or_streamGo_length (ab : Option Nat) (ds : List OpenRouterAdapter.Chunk) :
    ∀ i, (OpenRouterAdapter.streamGo ab i ds).length ≤ ds.length + 1 := by
  induction ds with
  | nil => intro i; simp [OpenRouterAdapter.streamGo]
  | cons d rest ih =>
    intro i
    show (if isAborted ab i then [] else _).length ≤ _
    by_cases ha : isAborted ab i
    · simp [ha]
    · rw [if_neg ha]
      have h1 : (if d.content ≠ "" then [(⟨d.content, false⟩ : StreamToken)]
          else []).length ≤ 1 := by
        by_cases hc : d.content ≠ "" <;> simp [hc]
      by_cases hf : jsTruthyOpt d.finishReason
      · simp only [hf, if_true, List.length_append]
        simp only [List.length_cons, List.length_nil]
        omega
      · simp only [hf, Bool.false_eq_true, if_false, List.length_append]
        have := ih (i + 1)
        simp only [List.length_cons]
        omega

/-! ## Claim theorems -/

/-- C1, counterexample: for the streaming session of the claim, with
tokens "Hel", "lo" and then a done empty token, the relay sends THREE
`STREAM_TOKEN` notifications — one per token, including an empty one for
the terminal `done` token — not one per non-done token as claimed, before
the single `STREAM_COMPLETE`. -/
theorem C1_stream_relay_counterexample :
    (handleStreamGenerate "r1" [] [⟨"Hel", false⟩, ⟨"lo", false⟩, ⟨"", true⟩]
        StreamOutcome.normal none).1 =
      [SentMessage.streamToken "r1" "Hel", SentMessage.streamToken "r1" "lo",
       SentMessage.streamToken "r1" "", SentMessage.streamComplete "r1"] ∧
    (handleStreamGenerate "r1" [] [⟨"Hel", false⟩, ⟨"lo", false⟩, ⟨"", true⟩]
        StreamOutcome.normal none).1 ≠
      [SentMessage.streamToken "r1" "Hel", SentMessage.streamToken "r1" "lo",
       SentMessage.streamComplete "r1"] := by
  decide

/-- C1 (amended): for a stream of non-done tokens followed by a terminal
done empty-content token, consumed without cancellation, the relay sends
one `STREAM_TOKEN` per token in order — including an empty-content one
for the terminal done token — followed by exactly one `STREAM_COMPLETE`;
and on every exit path (completion, error, cancellation) the request id
is removed from the active-request map. -/
theorem C1_stream_relay_amended (rid : String) (m : ActiveMap)
    (ts : List StreamToken) (h : ∀ t ∈ ts, t.done = false) :
    (handleStreamGenerate rid m (ts ++ [⟨"", true⟩]) StreamOutcome.normal none).1 =
      ts.map (fun t => SentMessage.streamToken rid t.content) ++
        [SentMessage.streamToken rid "", SentMessage.streamComplete rid] ∧
    ∀ (ts2 : List StreamToken) (oc : StreamOutcome) (ab : Option Nat),
      mapHas rid (handleStreamGenerate rid m ts2 oc ab).2 = false := by
  constructor
  · unfold handleStreamGenerate
    rw [streamLoop_none_append_done rid ts h 0]
    rfl
  · intro ts2 oc ab
    unfold handleStreamGenerate
    exact mapHas_mapDelete rid (mapSet rid m)

/-- C1, witness: the amended theorem evaluated at the two-token session of
the claim. -/
theorem C1_stream_relay_witness :
    (handleStreamGenerate "r9" [] [⟨"Hel", false⟩, ⟨"lo", false⟩, ⟨"", true⟩]
        StreamOutcome.normal none).1 =
      [SentMessage.streamToken "r9" "Hel", SentMessage.streamToken "r9" "lo",
       SentMessage.streamToken "r9" "", SentMessage.streamComplete "r9"] ∧
    mapHas "r9" (handleStreamGenerate "r9" [] [⟨"Hel", false⟩, ⟨"lo", false⟩,
        ⟨"", true⟩] StreamOutcome.normal none).2 = false := by
  have h := C1_stream_relay_amended "r9" [] [⟨"Hel", false⟩, ⟨"lo", false⟩]
    (by decide)
  exact ⟨h.1, h.2 [⟨"Hel", false⟩, ⟨"lo", false⟩, ⟨"", true⟩]
    StreamOutcome.normal none⟩

/-- C6, counterexample: when `abort()` is observed mid-stream, both
adapters terminate the sequence WITHOUT a final `done = true` element: the
Ollama stream aborted before its second chunk ends on a non-done token,
and the OpenRouter stream aborted before its first chunk yields nothing at
all. -/
theorem C6_adapter_stream_counterexample :
    OllamaAdapter.stream [⟨"Hel", false⟩, ⟨"", true⟩] (some 1) =
      [⟨"Hel", false⟩] ∧
    lastDone (OllamaAdapter.stream [⟨"Hel", false⟩, ⟨"", true⟩] (some 1)) =
      false ∧
    lastDone (OpenRouterAdapter.stream [⟨"Hel", none⟩] (some 0)) = false := by
  decide

/-- C6 (amended): every adapter stream is finite (its length is bounded by
the upstream chunk count); without an abort, the OpenRouter stream always
ends in a `done = true` token, and the Ollama stream mirrors the upstream
chunks exactly — so it ends in `done = true` precisely when the upstream
terminating chunk is marked done; an abort observed from iteration `k`
truncates the Ollama stream to the first `k` chunks, terminating it early
without a `done = true` token. -/
theorem C6_adapter_stream_amended (cs : List OllamaAdapter.Chunk)
    (ds : List OpenRouterAdapter.Chunk) (k : Nat) :
    OllamaAdapter.stream cs none = cs.map (fun c => ⟨c.content, c.done⟩) ∧
    OllamaAdapter.stream cs (some k) =
      (cs.take k).map (fun c => ⟨c.content, c.done⟩) ∧
    (OllamaAdapter.stream cs (some k)).length ≤ k ∧
    lastDone (OpenRouterAdapter.stream ds none) = true ∧
    (OpenRouterAdapter.stream ds none).length ≤ ds.length + 1 := by
  refine ⟨ollama_streamGo_none cs 0, ?_, ?_, ?_, or_streamGo_length none ds 0⟩
  · simpa using ollama_streamGo_abort k cs 0
  · rw [OllamaAdapter.stream, ollama_streamGo_abort k cs 0]
    simp only [List.length_map, Nat.sub_zero]
    exact le_trans (List.length_take_le k cs) (le_refl k) |>.trans (le_refl k)
  · rw [lastDone, OpenRouterAdapter.stream, or_streamGo_none_getLast ds 0]
    rfl

/-! ## Concrete fixtures used by witnesses and counterexamples -/

/-- An environment in which every awaited operation succeeds. -/
def envOk : Env :=
  { testConnection := Except.ok (createSuccess true)
    listModels := Except.ok (createSuccess [])
    translate := Except.ok (createSuccess "ok")
    assistWriting := Except.ok (createSuccess "ok")
    checkGrammar := Except.ok (createSuccess "ok")
    getTransformationById := Except.ok true
    transformRun := Except.ok (createSuccess "ok")
    registerContextMenus := Except.ok ()
    updateConfigRun := Except.ok () }

/-- An environment whose translate service throws. -/
def envThrowTranslate : Env :=
  { envOk with translate := Except.error (some ⟨"Error", "boom"⟩) }

/-- An Ollama configuration with a selected model. -/
def cfg0 : StoredProviderConfig :=
  { type := "ollama", host := "localhost", port := 11434, model := "llama3" }

/-- An Ollama configuration with no model selected. -/
def cfgNoModel : StoredProviderConfig :=
  { type := "ollama", host := "localhost", port := 11434, model := "" }

/-- The empty shared state. -/
def st0 : HandlerState := { activeRequests := [], adapterInFlight := none }

/-- A concrete instance of the abstract cipher: prepend the IV to the
message. -/
def cipherE2 (_k : Unit) (iv m : List Nat) : List Nat := iv ++ m

/-- The matching concrete decryption: drop the IV again. -/
def cipherD2 (_k : Unit) (iv c : List Nat) : List Nat := c.drop iv.length

/-- A concrete text encoder for ASCII fixtures. -/
def textEnc (s : String) : List Nat := s.data.map Char.toNat

/-- The matching concrete text decoder. -/
def textDec (bs : List Nat) : String := String.mk (bs.map Char.ofNat)

/-- A concrete 12-byte IV. -/
def ivA : List Nat := [1, 2, 3, 4, 5, 6, 7, 8, 9, 10, 11, 12]

/-- A second, distinct 12-byte IV. -/
def ivB : List Nat := [2, 2, 3, 4, 5, 6, 7, 8, 9, 10, 11, 12]

/-- C2: for every inbound request, `handleMessage` returns exactly one
structured envelope — the embedding is a total function — and when the
dispatch switch throws, the top-level catch converts the thrown value to
an `INTERNAL_ERROR` envelope, while an unhandled request kind yields an
`UNKNOWN_MESSAGE` envelope. -/
theorem C2_router_total (env : Env) (cfg : StoredProviderConfig)
    (lk : Option String) (hk : Bool) (tab : Option Nat) (st : HandlerState)
    (msg : ExtensionRequest) :
    (∀ e : Thrown,
      (requiresModel msg && (resolveModel cfg lk hk).isNone) = false →
      (dispatch env (resolveModel cfg lk hk) tab st msg).1 = Except.error e →
      (handleMessage env cfg lk hk tab st msg).1 =
        Envelope.fail ⟨"INTERNAL_ERROR", thrownMessage e⟩) ∧
    (∀ t : String, t ∉ handledTypes → msg = ExtensionRequest.other t →
      (handleMessage env cfg lk hk tab st msg).1 =
        Envelope.fail ⟨"UNKNOWN_MESSAGE", "Unknown message type"⟩) := by
  constructor
  · intro e hsc hdisp
    unfold handleMessage
    rw [if_neg (by simp [hsc])]
    simp only [hdisp]
  · intro t ht hmsg
    subst hmsg
    have hrm : requiresModel (ExtensionRequest.other t) = false := by
      unfold requiresModel msgType
      cases hc : ["TRANSLATE", "WRITING_ASSIST", "GRAMMAR_CHECK",
          "TRANSFORM"].contains t
      · rfl
      · exfalso
        have hmem : t = "TRANSLATE" ∨ t = "WRITING_ASSIST" ∨
            t = "GRAMMAR_CHECK" ∨ t = "TRANSFORM" := by simpa using hc
        rcases hmem with rfl | rfl | rfl | rfl
        · exact ht (by decide)
        · exact ht (by decide)
        · exact ht (by decide)
        · exact ht (by decide)
    unfold handleMessage
    rw [if_neg (by simp [hrm])]
    rfl

/-- C2, witness: a thrown translate service becomes `INTERNAL_ERROR`, and
an unknown message type becomes `UNKNOWN_MESSAGE`. -/
theorem C2_router_total_witness :
    (handleMessage envThrowTranslate cfg0 none false none st0
        ExtensionRequest.translate).1 =
      Envelope.fail ⟨"INTERNAL_ERROR", "boom"⟩ ∧
    (handleMessage envOk cfg0 none false none st0
        (ExtensionRequest.other "BOGUS")).1 =
      Envelope.fail ⟨"UNKNOWN_MESSAGE", "Unknown message type"⟩ := by
  constructor
  · exact (C2_router_total envThrowTranslate cfg0 none false none st0
      ExtensionRequest.translate).1 (some ⟨"Error", "boom"⟩) (by decide) rfl
  · exact (C2_router_total envOk cfg0 none false none st0
      (ExtensionRequest.other "BOGUS")).2 "BOGUS" (by decide) rfl

/-- C3: a model-requiring request (TRANSLATE, WRITING_ASSIST,
GRAMMAR_CHECK, TRANSFORM) whose resolved model is empty short-circuits
with a `MODEL_NOT_SELECTED` envelope, leaves the state unchanged, and
invokes no provider or service operation (empty invocation trace). -/
theorem C3_model_required_shortcircuit (env : Env)
    (cfg : StoredProviderConfig) (lk : Option String) (hk : Bool)
    (tab : Option Nat) (st : HandlerState) (msg : ExtensionRequest)
    (hreq : requiresModel msg = true)
    (hmodel : resolveModel cfg lk hk = none) :
    handleMessage env cfg lk hk tab st msg =
      (Envelope.fail ⟨"MODEL_NOT_SELECTED",
        "Please select a model in the extension popup first"⟩, st, []) := by
  unfold handleMessage
  rw [if_pos (by simp [hreq, hmodel])]

/-- C3, witness: a TRANSLATE request against an Ollama configuration with
an empty model string. -/
theorem C3_model_required_witness :
    handleMessage envOk cfgNoModel none false none st0
        ExtensionRequest.translate =
      (Envelope.fail ⟨"MODEL_NOT_SELECTED",
        "Please select a model in the extension popup first"⟩, st0, []) :=
  C3_model_required_shortcircuit envOk cfgNoModel none false none st0
    ExtensionRequest.translate (by decide) (by decide)

/-- C9, counterexample: handling CANCEL_REQUEST for an id absent from the
active-request map does NOT leave the shared state unchanged — the router
unconditionally calls `provider.abort()`, which aborts the signal of an
unrelated in-flight adapter operation. -/
theorem C9_cancel_request_counterexample :
    mapHas "bogus" (["other"] : ActiveMap) = false ∧
    (handleMessage envOk cfg0 none false none ⟨["other"], some false⟩
        (ExtensionRequest.cancelRequest "bogus")).2.1 ≠
      (⟨["other"], some false⟩ : HandlerState) := by
  decide

/-- C9 (amended): handling CANCEL_REQUEST for an id with no entry in the
active-request map returns `{success:true}` and leaves the map unchanged,
but still invokes `provider.abort()` — so the current adapter's in-flight
operation, if any, has its abort signal set; when nothing is in flight
the abort is a no-op. -/
theorem C9_cancel_request_amended (env : Env) (cfg : StoredProviderConfig)
    (lk : Option String) (hk : Bool) (tab : Option Nat) (st : HandlerState)
    (rid : String) (h : mapHas rid st.activeRequests = false) :
    handleMessage env cfg lk hk tab st (ExtensionRequest.cancelRequest rid) =
      (Envelope.ok RespData.null,
       { activeRequests := st.activeRequests,
         adapterInFlight := st.adapterInFlight.map (fun _ => true) },
       ["provider.abort"]) := by
  unfold handleMessage
  rw [if_neg (by simp [requiresModel, msgType])]
  simp [dispatch, h]

/-- C9, witness: the amended theorem at a state holding an unrelated
request id and an in-flight adapter operation. -/
theorem C9_cancel_request_witness :
    handleMessage envOk cfg0 none false none ⟨["other"], some false⟩
        (ExtensionRequest.cancelRequest "bogus") =
      (Envelope.ok RespData.null, ⟨["other"], some true⟩,
       ["provider.abort"]) :=
  C9_cancel_request_amended envOk cfg0 none false none
    ⟨["other"], some false⟩ "bogus" (by decide)

/-- C7: `sendToBackground` always resolves with a structured envelope (the
embedding is a total function into envelopes, never a rejection): absent
runtime gives `NO_RUNTIME`; a delivery-level failure gives
`MESSAGING_ERROR` regardless of any response; a null/undefined response
gives `NO_RESPONSE`; otherwise the received envelope is returned as is. -/
theorem C7_sendToBackground_resolves (ρ : Type) (m : Option String)
    (r : Envelope ρ) :
    sendToBackground (Transport.absent : Transport ρ) =
      Envelope.fail ⟨"NO_RUNTIME", "Chrome runtime not available"⟩ ∧
    (∀ resp : Option (Envelope ρ),
      sendToBackground (Transport.callback (some m) resp) =
        Envelope.fail ⟨"MESSAGING_ERROR", jsOrStr m "Unknown messaging error"⟩) ∧
    sendToBackground (Transport.callback none none : Transport ρ) =
      Envelope.fail ⟨"NO_RESPONSE", "No response received"⟩ ∧
    sendToBackground (Transport.callback none (some r)) = r :=
  ⟨rfl, fun _ => rfl, rfl, rfl⟩

/-- C8, counterexample: the claim maps any message containing `429` to
`RATE_LIMITED`, but the authentication check runs first, so a backend
error message containing both `429` and `unauthorized` yields
`AUTHENTICATION_FAILED`. -/
theorem C8_complete_error_mapping_counterexample :
    OpenRouterAdapter.ratePattern (strToLower "HTTP 429 Unauthorized") = true ∧
    OpenRouterAdapter.complete "meta-llama-3" "m"
        (OpenRouterAdapter.SendOutcome.thrown
          (some ⟨"Error", "HTTP 429 Unauthorized"⟩)) =
      createError LLMErrorCode.AUTHENTICATION_FAILED "Invalid API key" := by
  decide

/-- C8 (amended): `complete` never throws — every failure is returned as a
tagged failure result — and thrown backend errors are classified in
priority order on the lowercased message: authentication patterns
(401/unauthorized/invalid api key) first, then not-found (404/not found),
then rate limiting (429/rate limit), then the `AbortError` name; so a 429
message yields `RATE_LIMITED` exactly when no earlier pattern matches. -/
theorem C8_complete_error_mapping_amended (modelId requestModel : String)
    (e : JsError)
    (hmodel : (if requestModel = "" then modelId else requestModel) ≠ "") :
    (OpenRouterAdapter.authPattern (strToLower e.message) = true →
      OpenRouterAdapter.complete modelId requestModel
          (OpenRouterAdapter.SendOutcome.thrown (some e)) =
        createError LLMErrorCode.AUTHENTICATION_FAILED "Invalid API key") ∧
    (OpenRouterAdapter.authPattern (strToLower e.message) = false →
      OpenRouterAdapter.notFoundPattern (strToLower e.message) = true →
      OpenRouterAdapter.complete modelId requestModel
          (OpenRouterAdapter.SendOutcome.thrown (some e)) =
        createError LLMErrorCode.MODEL_NOT_FOUND
          ("Model " ++ modelId ++ " not found")) ∧
    (OpenRouterAdapter.authPattern (strToLower e.message) = false →
      OpenRouterAdapter.notFoundPattern (strToLower e.message) = false →
      OpenRouterAdapter.ratePattern (strToLower e.message) = true →
      OpenRouterAdapter.complete modelId requestModel
          (OpenRouterAdapter.SendOutcome.thrown (some e)) =
        createError LLMErrorCode.RATE_LIMITED
          "Rate limited. Please try again later.") ∧
    (OpenRouterAdapter.authPattern (strToLower e.message) = false →
      OpenRouterAdapter.notFoundPattern (strToLower e.message) = false →
      OpenRouterAdapter.ratePattern (strToLower e.message) = false →
      e.name = "AbortError" →
      OpenRouterAdapter.complete modelId requestModel
          (OpenRouterAdapter.SendOutcome.thrown (some e)) =
        createError LLMErrorCode.CANCELLED "Request was cancelled") := by
  refine ⟨?_, ?_, ?_, ?_⟩ <;> intros <;>
    simp [OpenRouterAdapter.complete, OpenRouterAdapter.handleError,
      hmodel, *]

/-- C8, witness: a pure rate-limit message maps to `RATE_LIMITED`. -/
theorem C8_complete_error_mapping_witness :
    OpenRouterAdapter.complete "meta-llama-3" "m"
        (OpenRouterAdapter.SendOutcome.thrown
          (some ⟨"Error", "HTTP 429 Too Many Requests"⟩)) =
      createError LLMErrorCode.RATE_LIMITED
        "Rate limited. Please try again later." :=
  (C8_complete_error_mapping_amended "meta-llama-3" "m"
      ⟨"Error", "HTTP 429 Too Many Requests"⟩ (by decide)).2.2.1
    (by decide) (by decide) (by decide)

/-- Shared roundtrip lemma for the secret cipher: decryption recovers the
plaintext whenever the underlying cipher inverts on this input, the
ciphertext and IV are byte lists, and the text codec inverts on this
input. -/
theorem decryptApiKey_encryptApiKey {κ : Type}
    (E D : κ → List Nat → List Nat → List Nat)
    (enc : String → List Nat) (dec : List Nat → String)
    (key : κ) (iv : List Nat) (s : String)
    (hiv : ∀ b ∈ iv, b < 256)
    (hct : ∀ b ∈ E key iv (enc s), b < 256)
    (hD : D key iv (E key iv (enc s)) = enc s)
    (hdec : dec (enc s) = s) :
    decryptApiKey D dec key (encryptApiKey E enc key iv s) = s := by
  show dec (D key (b64d (b64e iv)) (b64d (b64e (E key iv (enc s))))) = s
  rw [b64_roundtrip iv hiv, b64_roundtrip _ hct, hD, hdec]

/-- C4: `decryptApiKey (encryptApiKey s) = s` — encrypting under the
stored key handle with a fresh IV, base64-encoding ciphertext and IV,
then decoding and decrypting with the same key handle round-trips to the
original plaintext.  The WebCrypto AES-GCM primitive and the UTF-8 text
codec are abstract; their standard inversion properties at this input
enter as hypotheses, and the base64 plumbing is proved concretely. -/
theorem C4_encrypt_decrypt_roundtrip {κ : Type}
    (E D : κ → List Nat → List Nat → List Nat)
    (enc : String → List Nat) (dec : List Nat → String)
    (key : κ) (iv : List Nat) (s : String)
    (hiv : ∀ b ∈ iv, b < 256)
    (hct : ∀ b ∈ E key iv (enc s), b < 256)
    (hD : D key iv (E key iv (enc s)) = enc s)
    (hdec : dec (enc s) = s) :
    decryptApiKey D dec key (encryptApiKey E enc key iv s) = s :=
  decryptApiKey_encryptApiKey E D enc dec key iv s hiv hct hD hdec

/-- C4, witness: the roundtrip at a concrete cipher, codec, IV and key. -/
theorem C4_encrypt_decrypt_witness :
    decryptApiKey cipherD2 textDec () (encryptApiKey cipherE2 textEnc ()
      ivA "sk-or-v1-abc123") = "sk-or-v1-abc123" :=
  C4_encrypt_decrypt_roundtrip cipherE2 cipherD2 textEnc textDec () ivA
    "sk-or-v1-abc123" (by decide) (by decide) (by decide) (by decide)

/-- C5: two encryptions of the same plaintext under distinct fresh IVs
produce `EncryptedData` records whose ciphertext fields differ — the
base64 encoding and string packaging preserve the distinctness of the
underlying AES-GCM ciphertexts — while both still decrypt back to the
plaintext.  The IV-sensitivity of the cipher at this plaintext enters as
a hypothesis. -/
theorem C5_fresh_iv_distinct_ciphertexts {κ : Type}
    (E D : κ → List Nat → List Nat → List Nat)
    (enc : String → List Nat) (dec : List Nat → String)
    (key : κ) (iv1 iv2 : List Nat) (s : String)
    (hfresh : iv1 ≠ iv2)
    (hne : iv1 ≠ iv2 → E key iv1 (enc s) ≠ E key iv2 (enc s))
    (h1 : ∀ b ∈ E key iv1 (enc s), b < 256)
    (h2 : ∀ b ∈ E key iv2 (enc s), b < 256)
    (hiv1 : ∀ b ∈ iv1, b < 256) (hiv2 : ∀ b ∈ iv2, b < 256)
    (hD1 : D key iv1 (E key iv1 (enc s)) = enc s)
    (hD2 : D key iv2 (E key iv2 (enc s)) = enc s)
    (hdec : dec (enc s) = s) :
    (encryptApiKey E enc key iv1 s).ciphertext ≠
      (encryptApiKey E enc key iv2 s).ciphertext ∧
    decryptApiKey D dec key (encryptApiKey E enc key iv1 s) = s ∧
    decryptApiKey D dec key (encryptApiKey E enc key iv2 s) = s := by
  refine ⟨?_,
    decryptApiKey_encryptApiKey E D enc dec key iv1 s hiv1 h1 hD1 hdec,
    decryptApiKey_encryptApiKey E D enc dec key iv2 s hiv2 h2 hD2 hdec⟩
  intro heq
  have hchars : b64e (E key iv1 (enc s)) = b64e (E key iv2 (enc s)) :=
    congrArg String.data heq
  exact hne hfresh (b64e_inj _ _ h1 h2 hchars)

/-- C5, witness: distinct concrete IVs give distinct ciphertext fields and
both records decrypt to the plaintext. -/
theorem C5_fresh_iv_witness :
    (encryptApiKey cipherE2 textEnc () ivA "sk-test").ciphertext ≠
      (encryptApiKey cipherE2 textEnc () ivB "sk-test").ciphertext ∧
    decryptApiKey cipherD2 textDec ()
      (encryptApiKey cipherE2 textEnc () ivA "sk-test") = "sk-test" ∧
    decryptApiKey cipherD2 textDec ()
      (encryptApiKey cipherE2 textEnc () ivB "sk-test") = "sk-test" :=
  C5_fresh_iv_distinct_ciphertexts cipherE2 cipherD2 textEnc textDec ()
    ivA ivB "sk-test" (by decide) (fun _ => by decide) (by decide)
    (by decide) (by decide) (by decide) (by decide) (by decide) (by decide)

/-- C10: saving an empty API key never stores anything — it clears the
encrypted record and the session cache, after which `hasStoredApiKey` is
false — while saving a non-empty key stores the encrypted record and
caches the plaintext in the session store. -/
theorem C10_save_empty_clears {κ : Type}
    (E : κ → List Nat → List Nat → List Nat) (enc : String → List Nat)
    (key : κ) (iv : List Nat) (st : KeyStorageState) :
    saveEncryptedApiKey E enc key iv "" st =
      { localEncrypted := none, sessionCache := none } ∧
    hasStoredApiKey (saveEncryptedApiKey E enc key iv "" st) = false ∧
    ∀ s : String, s ≠ "" →
      saveEncryptedApiKey E enc key iv s st =
        { localEncrypted := some (encryptApiKey E enc key iv s)
          sessionCache := some s } := by
  refine ⟨rfl, rfl, ?_⟩
  intro s hs
  unfold saveEncryptedApiKey
  rw [if_neg hs]

/-- C10, witness: clearing from a populated state and saving a fresh key. -/
theorem C10_save_empty_witness :
    saveEncryptedApiKey cipherE2 textEnc () ivA ""
        ⟨some (encryptApiKey cipherE2 textEnc () ivA "old"), some "old"⟩ =
      { localEncrypted := none, sessionCache := none } ∧
    hasStoredApiKey (saveEncryptedApiKey cipherE2 textEnc () ivA ""
        ⟨some (encryptApiKey cipherE2 textEnc () ivA "old"), some "old"⟩) =
      false ∧
    saveEncryptedApiKey cipherE2 textEnc () ivA "sk-new"
        ⟨some (encryptApiKey cipherE2 textEnc () ivA "old"), some "old"⟩ =
      { localEncrypted := some (encryptApiKey cipherE2 textEnc () ivA "sk-new")
        sessionCache := some "sk-new" } := by
  have h := C10_save_empty_clears cipherE2 textEnc () ivA
    ⟨some (encryptApiKey cipherE2 textEnc () ivA "old"), some "old"⟩
  exact ⟨h.1, h.2.1, h.2.2 "sk-new" (by decide)⟩

end BrowserLLM
